import Mathlib

/-!
Verification development for the CodeSentry benchmark harness
(`src/benchmark_parser.py`).

Representation convention: every Python string that the program only ever
builds by joining pieces with a newline and only ever consumes by splitting
on a newline is represented by its list of lines (`List String`).  A part
appended by the generators is represented by the list of lines of that part;
a multi-line template literal `"\nBODY\n"` therefore becomes
`"" :: body ++ [""]`, since `("\n" ++ b1 ++ "\n" ++ ... ++ bn ++ "\n")`
splits on `"\n"` into `["", b1, ..., bn, ""]`, and `'\n'.join(parts)` splits
into the concatenation of the parts' line lists.  The driver's
`actual_lines = len(code.split('\n'))` is then the length of the line list.
The final joined text itself is recovered by `String.intercalate "\n"`.

Rational numbers stand in for Python's floats: the claims under test are
about the arithmetic expressions the code computes, not about rounding.
-/

/-- The five single-line parts the JavaScript generator starts with
(`generate_javascript_code`, the initial `code_parts.extend`). -/
def jsPreambleLines : List String :=
  ["import React from 'react';",
   "import \x7b useState, useEffect \x7d from 'react';",
   "const fs = require('fs');",
   "const path = require('path');",
   ""]

/-- Lines of the JavaScript class template (`class_code` stripped of its
surrounding newlines), for rotation index `fc`.  A literal brace of the
generated JavaScript is written `\x7b` / `\x7d`. -/
def jsClassBody (fc : Nat) : List String :=
  let k := fc / 5
  [s!"class TestClass{k} \x7b",
   "    constructor() \x7b",
   s!"        this.value = {fc};",
   s!"        this.name = 'test{fc}';",
   "    \x7d",
   "    ",
   s!"    method{fc}(a, b, c) \x7b",
   "        if (a > 0) \x7b",
   "            for (let i = 0; i < b; i++) \x7b",
   "                if (i % 2 === 0) \x7b",
   "                    this.value += c;",
   "                \x7d else if (i % 3 === 0) \x7b",
   "                    this.value -= c;",
   "                \x7d else \x7b",
   "                    this.value *= 2;",
   "                \x7d",
   "            \x7d",
   "        \x7d else if (a < 0) \x7b",
   "            while (b > 0) \x7b",
   "                this.value += a;",
   "                b--;",
   "            \x7d",
   "        \x7d",
   "        return this.value && a || b;",
   "    \x7d",
   "    ",
   "    get getValue() \x7b",
   "        return this.value;",
   "    \x7d",
   "\x7d"]

/-- Lines of the JavaScript function template (`func_code` stripped of its
surrounding newlines), for rotation index `fc`. -/
def jsFuncBody (fc : Nat) : List String :=
  [s!"function testFunction{fc}(x, y, z) \x7b",
   "    let result = 0;",
   "    ",
   "    if (x > 0) \x7b",
   "        result += x;",
   "    \x7d else if (x < 0) \x7b",
   "        result -= x;",
   "    \x7d else \x7b",
   "        result = 1;",
   "    \x7d",
   "    ",
   "    for (let i = 0; i < y; i++) \x7b",
   "        if (i % 2 === 0) \x7b",
   "            result *= 2;",
   "        \x7d else \x7b",
   "            result += z;",
   "        \x7d",
   "    \x7d",
   "    ",
   "    switch (result % 4) \x7b",
   "        case 0:",
   "            result += 10;",
   "            break;",
   "        case 1:",
   "            result += 20;",
   "            break;",
   "        case 2:",
   "            result += 30;",
   "            break;",
   "        default:",
   "            result += 40;",
   "    \x7d",
   "    ",
   "    return result;",
   "\x7d",
   "",
   s!"const arrow{fc} = async (a, b) => \x7b",
   "    const data = await fetch(`/api/data/$\x7ba\x7d`);",
   "    return data.json();",
   "\x7d;"]

/-- The four variable-declaration parts the JavaScript generator appends
after a block when far enough from the target (each part one line). -/
def jsDeclLines (fc : Nat) : List String :=
  let m := fc * 2
  [s!"const variable{fc} = 'test value {fc}';",
   s!"let counter{fc} = {fc};",
   s!"var legacy{fc} = {m};",
   ""]

/-- The five single-line parts the TypeScript generator starts with. -/
def tsPreambleLines : List String :=
  ["import React, \x7b Component \x7d from 'react';",
   "import type \x7b User, ApiResponse \x7d from './types';",
   "import * as utils from './utils';",
   "const fs = require('fs');",
   ""]

/-- Lines of the TypeScript interface template (`interface_code` stripped of
its surrounding newlines), for rotation index `fc`. -/
def tsInterfaceBody (fc : Nat) : List String :=
  let k := fc / 4
  [s!"interface Entity{k} \x7b",
   "    id: number;",
   "    name: string;",
   "    createdAt: Date;",
   "    updatedAt?: Date;",
   "    ",
   "    getName(): string;",
   "    setName(name: string): void;",
   "    validate(): boolean;",
   "\x7d"]

/-- Lines of the TypeScript generic-class template (`class_code` stripped of
its surrounding newlines), for rotation index `fc`. -/
def tsClassBody (fc : Nat) : List String :=
  let k := fc / 4
  [s!"class Repository<T extends Entity{k}> \x7b",
   "    private items: T[] = [];",
   "    ",
   "    constructor(private name: string) \x7b\x7d",
   "    ",
   "    async add(item: T): Promise<T> \x7b",
   "        if (!item.name || item.name.trim() === '') \x7b",
   "            throw new Error('Name is required');",
   "        \x7d",
   "        ",
   "        for (const existing of this.items) \x7b",
   "            if (existing.id === item.id) \x7b",
   "                throw new Error('Item already exists');",
   "            \x7d",
   "        \x7d",
   "        ",
   "        this.items.push(item);",
   "        return item;",
   "    \x7d",
   "    ",
   "    findById<K extends keyof T>(id: K, value: T[K]): T | undefined \x7b",
   "        return this.items.find(item => item[id] === value);",
   "    \x7d",
   "    ",
   "    async update(id: number, updates: Partial<T>): Promise<T | null> \x7b",
   "        const index = this.items.findIndex(item => item.id === id);",
   "        if (index === -1) \x7b",
   "            return null;",
   "        \x7d",
   "        ",
   "        const updated = \x7b ...this.items[index], ...updates \x7d;",
   "        this.items[index] = updated;",
   "        return updated;",
   "    \x7d",
   "\x7d"]

/-- Lines of the TypeScript typed-functions template (`func_code` stripped of
its surrounding newlines), for rotation index `fc`. -/
def tsFuncBody (fc : Nat) : List String :=
  let k := fc / 4
  [s!"async function processEntity{fc}<T extends Entity{k}>(",
   "    entity: T,",
   "    options: ProcessOptions = \x7b\x7d",
   "): Promise<ProcessResult<T>> \x7b",
   "    try \x7b",
   "        if (!entity.validate()) \x7b",
   "            throw new Error('Invalid entity');",
   "        \x7d",
   "        ",
   "        const result: ProcessResult<T> = \x7b",
   "            success: false,",
   "            data: entity,",
   "            errors: []",
   "        \x7d;",
   "        ",
   "        if (options.strict) \x7b",
   "            for (const key in entity) \x7b",
   "                if (entity.hasOwnProperty(key)) \x7b",
   "                    const value = entity[key];",
   "                    if (value === null || value === undefined) \x7b",
   "                        result.errors.push(`Missing value for $\x7bkey\x7d`);",
   "                    \x7d",
   "                \x7d",
   "            \x7d",
   "        \x7d",
   "        ",
   "        if (result.errors.length === 0) \x7b",
   "            result.success = true;",
   "        \x7d",
   "        ",
   "        return result;",
   "    \x7d catch (error) \x7b",
   "        return \x7b",
   "            success: false,",
   "            data: entity,",
   "            errors: [error.message]",
   "        \x7d;",
   "    \x7d",
   "\x7d",
   "",
   s!"const createValidator{fc} = <T>(",
   "    validator: (item: T) => boolean",
   "): ((items: T[]) => T[]) => \x7b",
   "    return (items: T[]): T[] => \x7b",
   "        return items.filter(validator);",
   "    \x7d;",
   "\x7d;"]

/-- The four type-definition parts the TypeScript generator appends after a
block when far enough from the target (each part one line). -/
def tsDeclLines (fc : Nat) : List String :=
  ["type ProcessOptions = \x7b strict?: boolean; timeout?: number; \x7d;",
   "type ProcessResult<T> = \x7b success: boolean; data: T; errors: string[]; \x7d;",
   s!"enum Status{fc} \x7b PENDING = 'pending', COMPLETED = 'completed' \x7d",
   ""]

/-- The while loop of `generate_javascript_code` (src lines 30-124): state is
`(code_parts, current_lines)` past the preamble, with rotation index `fc`.
Returns the lines contributed by the loop and the final `current_lines`.
Each appended block counts `len(block.strip().split('\n'))` toward
`current_lines` — the body length — while contributing `body.length + 2`
lines of text (the template's surrounding newlines). -/
def jsLoop (lines : Int) (current fc : Nat) : List String × Nat :=
  if _h : (current : Int) < lines then
    let body := if fc % 5 = 0 then jsClassBody fc else jsFuncBody fc
    let rest :=
      if (current + body.length : Int) < lines - 5 then
        let r := jsLoop lines (current + body.length + 4) (fc + 1)
        (jsDeclLines (fc + 1) ++ r.1, r.2)
      else
        jsLoop lines (current + body.length) (fc + 1)
    (("" :: body ++ [""]) ++ rest.1, rest.2)
  else ([], current)
termination_by (lines - current).toNat
decreasing_by
  all_goals
    (unfold_let body at *
     simp only [dite_eq_ite] at *
     have hb : 0 < (if fc % 5 = 0 then jsClassBody fc else jsFuncBody fc).length := by
      have h1 : (jsClassBody fc).length = 30 := rfl
      have h2 : (jsFuncBody fc).length = 40 := rfl
      split <;> omega
     omega)

/-- The while loop of `generate_typescript_code` (src lines 144-266), same
shape as `jsLoop` with the four-way rotation and the `lines - 10` margin. -/
def tsLoop (lines : Int) (current fc : Nat) : List String × Nat :=
  if _h : (current : Int) < lines then
    let body :=
      if fc % 4 = 0 then tsInterfaceBody fc
      else if fc % 4 = 1 then tsClassBody fc
      else tsFuncBody fc
    let rest :=
      if (current + body.length : Int) < lines - 10 then
        let r := tsLoop lines (current + body.length + 4) (fc + 1)
        (tsDeclLines (fc + 1) ++ r.1, r.2)
      else
        tsLoop lines (current + body.length) (fc + 1)
    (("" :: body ++ [""]) ++ rest.1, rest.2)
  else ([], current)
termination_by (lines - current).toNat
decreasing_by
  all_goals
    (unfold_let body at *
     simp only [dite_eq_ite] at *
     have hb : 0 <
        (if fc % 4 = 0 then tsInterfaceBody fc
         else if fc % 4 = 1 then tsClassBody fc
         else tsFuncBody fc).length := by
      have h1 : (tsInterfaceBody fc).length = 10 := rfl
      have h2 : (tsClassBody fc).length = 35 := rfl
      have h3 : (tsFuncBody fc).length = 47 := rfl
      split <;> (try split) <;> omega
     omega)

/-- Line list of `generate_javascript_code(lines)`: preamble then loop. -/
def generate_javascript_lines (lines : Int) : List String :=
  jsPreambleLines ++ (jsLoop lines 5 0).1

/-- Line list of `generate_typescript_code(lines)`. -/
def generate_typescript_lines (lines : Int) : List String :=
  tsPreambleLines ++ (tsLoop lines 5 0).1

/-- The string `generate_javascript_code(lines)` returns:
`'\n'.join(code_parts)`. -/
def generate_javascript_code (lines : Int) : String :=
  String.intercalate "\n" (generate_javascript_lines lines)

/-- The string `generate_typescript_code(lines)` returns. -/
def generate_typescript_code (lines : Int) : String :=
  String.intercalate "\n" (generate_typescript_lines lines)

/-- Metrics of the first file result of an analysis response
(`result_data['results'][0]['metrics']`, src lines 324-325). -/
structure AnalysisMetrics where
  functions_count : Nat
  classes_count : Nat
  complexity_score : ℚ
deriving DecidableEq, Repr

/-- The part of a 200-response body the driver consults: the first file
result's metrics and the length of its findings list. -/
structure AnalysisBody where
  metrics : AnalysisMetrics
  findings_count : Nat
deriving DecidableEq, Repr

/-- One record of `results['benchmarks']`.  The Python record is a dict whose
keys differ between the success branch (src lines 327-339), the non-200
branch (354-361) and the exception branch (365-371); an `Option` field is
`none` exactly when the corresponding key is absent from the dict. -/
structure BenchmarkResult where
  language : String
  target_lines : Int
  actual_lines : Nat
  duration_ms : Option ℚ
  lines_per_second : Option ℚ
  ms_per_1k_lines : Option ℚ
  functions_found : Option Nat
  classes_found : Option Nat
  complexity_score : Option ℚ
  findings_count : Option Nat
  error : Option String
  success : Bool
deriving DecidableEq, Repr

/-- What one trial's network call (`requests.post`, src lines 311-315)
observably does: returns a response with a duration, status code, parsed
body and body text, or raises (timeout or transport error) with a message.
The sweep is modelled against an arbitrary such oracle, a function of the
trial's `(size, language)`. -/
inductive ServiceOutcome where
  | response (duration_ms : ℚ) (status : Nat) (body : AnalysisBody) (bodyText : String)
  | exn (message : String)
deriving DecidableEq, Repr

/-- The dict of `results['summary']` (src lines 384-391). -/
structure BenchmarkSummary where
  total_tests : Nat
  successful_tests : Nat
  average_ms_per_1k_lines : ℚ
  average_lines_per_second : ℚ
  max_lines_tested : Nat
  meets_target : Bool
deriving DecidableEq, Repr

/-- Python division: raises `ZeroDivisionError` on a zero divisor, modelled
by `none`. -/
def pyDiv (a b : ℚ) : Option ℚ := if b = 0 then none else some (a / b)

/-- The success-branch construction of a benchmark record (src lines
327-339): `lines_per_second = actual_lines / (duration_ms / 1000)` and
`ms_per_1k_lines = (duration_ms / actual_lines) * 1000`, computed in that
order.  `none` models the `ZeroDivisionError` the construction raises when
`actual_lines == 0` (or when `duration_ms == 0`); there is no guard in the
source. -/
def mkSuccessResult (lang : String) (target : Int) (actual : Nat) (duration : ℚ)
    (body : AnalysisBody) : Option BenchmarkResult := do
  let lps ← pyDiv (actual : ℚ) (duration / 1000)
  let mspk ← pyDiv duration (actual : ℚ)
  some { language := lang, target_lines := target, actual_lines := actual,
         duration_ms := some duration,
         lines_per_second := some lps,
         ms_per_1k_lines := some (mspk * 1000),
         functions_found := some body.metrics.functions_count,
         classes_found := some body.metrics.classes_count,
         complexity_score := some body.metrics.complexity_score,
         findings_count := some body.findings_count,
         error := none, success := true }

/-- The non-200 branch's record (src lines 354-361): success is false and
the error field captures the status code and body text. -/
def httpErrorResult (lang : String) (target : Int) (actual : Nat) (duration : ℚ)
    (status : Nat) (bodyText : String) : BenchmarkResult :=
  { language := lang, target_lines := target, actual_lines := actual,
    duration_ms := some duration,
    lines_per_second := none, ms_per_1k_lines := none,
    functions_found := none, classes_found := none,
    complexity_score := none, findings_count := none,
    error := some ("HTTP " ++ toString status ++ ": " ++ bodyText),
    success := false }

/-- The exception branch's record (src lines 365-371): no duration key,
success false, error text `str(e)`. -/
def exnResult (lang : String) (target : Int) (actual : Nat) (message : String) :
    BenchmarkResult :=
  { language := lang, target_lines := target, actual_lines := actual,
    duration_ms := none,
    lines_per_second := none, ms_per_1k_lines := none,
    functions_found := none, classes_found := none,
    complexity_score := none, findings_count := none,
    error := some message, success := false }

/-- One (size, language) trial of `benchmark_parsing` (src lines 286-374).
In the file as committed, lines 306-362 lost one indentation level, so the
`except` on line 364 is indented deeper than its `try` on line 310 and the
module does not parse as Python; this embedding follows the unique
re-indentation under which the region parses, which nests the whole timed
call inside the dialect loop.  A `ZeroDivisionError` raised while building
the success record is caught by the same `except Exception` and recorded as
a failed trial. -/
def runTrial (oracle : Int → String → ServiceOutcome) (size : Int) (lang : String)
    (gen : Int → List String) : BenchmarkResult :=
  let actual := (gen size).length
  match oracle size lang with
  | .response d status body bodyText =>
      if status = 200 then
        match mkSuccessResult lang size actual d body with
        | some r => r
        | none => exnResult lang size actual "division by zero"
      else httpErrorResult lang size actual d status bodyText
  | .exn msg => exnResult lang size actual msg

/-- The summary computation of `benchmark_parsing` (src lines 376-391):
filters the successful records; when none exist, `results['summary']` stays
the initial empty dict (modelled `none`); otherwise averages, maximum and
the target flag are computed.  A record produced with `success = True`
always carries the derived keys, so `getD 0` never actually supplies its
default there. -/
def summarize (file_sizes : List Int) (benchmarks : List BenchmarkResult) :
    Option BenchmarkSummary :=
  let successful := benchmarks.filter (·.success)
  if successful.isEmpty then none
  else
    let avg_ms := (successful.map fun b => b.ms_per_1k_lines.getD 0).sum /
      (successful.length : ℚ)
    let avg_lps := (successful.map fun b => b.lines_per_second.getD 0).sum /
      (successful.length : ℚ)
    some { total_tests := file_sizes.length,
           successful_tests := successful.length,
           average_ms_per_1k_lines := avg_ms,
           average_lines_per_second := avg_lps,
           max_lines_tested := ((successful.map fun b => b.actual_lines).max?).getD 0,
           meets_target := decide (avg_ms ≤ 100) }

/-- The full sweep `benchmark_parsing(file_sizes)` (src lines 270-405): for
each size, the JavaScript trial then the TypeScript trial, results appended
in order; then the summary.  Returns `(results['benchmarks'],
results['summary'])`. -/
def benchmark_parsing (oracle : Int → String → ServiceOutcome)
    (file_sizes : List Int) : List BenchmarkResult × Option BenchmarkSummary :=
  let benchmarks := file_sizes.flatMap fun size =>
    [runTrial oracle size "JavaScript" generate_javascript_lines,
     runTrial oracle size "TypeScript" generate_typescript_lines]
  (benchmarks, summarize file_sizes benchmarks)

/-- The Week-2 readiness predicate of `main` (src lines 432-433): at least
three successful records and every one of the trailing three (Python
`successful_tests[-3:]`) has at least 1000 actual lines. -/
def week2Ready (benchmarks : List BenchmarkResult) : Bool :=
  let successful := benchmarks.filter (·.success)
  decide (3 ≤ successful.length) &&
    (successful.drop (successful.length - 3)).all fun b => decide (1000 ≤ b.actual_lines)

/-- Arithmetic mean of a list of rationals, as the spec's aggregation
sentences state it. -/
def arithMean (l : List ℚ) : ℚ := l.sum / (l.length : ℚ)

/-- Line count of the largest single block part the JavaScript generator
appends: the class part spans 32 lines of the joined text and the function
part 42 (each body plus the template's two surrounding blank lines). -/
def jsLargestBlockLines : Nat :=
  max ("" :: jsClassBody 0 ++ [""]).length ("" :: jsFuncBody 0 ++ [""]).length

/-- Line count of the largest single block part the TypeScript generator
appends (interface 12, class 37, functions 49 lines of joined text). -/
def tsLargestBlockLines : Nat :=
  max ("" :: tsInterfaceBody 0 ++ [""]).length
    (max ("" :: tsClassBody 0 ++ [""]).length ("" :: tsFuncBody 0 ++ [""]).length)

/-- A stub service oracle for concrete runs: every call returns HTTP 200
after 10 ms with `functions_count=2, classes_count=1, complexity_score=5.0,
findings=[]` (the spec's end-to-end scenario). -/
def stubOracle : Int → String → ServiceOutcome := fun _ _ =>
  .response 10 200 ⟨⟨2, 1, 5⟩, 0⟩ ""

/-- A hand-built benchmark record for concrete examples: given derived
metric values, an actual line count and a success flag. -/
def sampleResult (q lps : ℚ) (n : Nat) (ok : Bool) : BenchmarkResult :=
  { language := "JavaScript", target_lines := (n : Int), actual_lines := n,
    duration_ms := some 10, lines_per_second := some lps,
    ms_per_1k_lines := some q,
    functions_found := some 2, classes_found := some 1,
    complexity_score := some 5, findings_count := some 0,
    error := if ok then none else some "HTTP 500: internal error",
    success := ok }

/-- Fuelled structural evaluator for `jsLoop`, used to evaluate the
well-founded recursion at concrete targets inside kernel-checked proofs;
`jsLoopFuel_eq` proves it agrees with `jsLoop` whenever the fuel covers the
remaining distance to the target. -/
def jsLoopFuel : Nat → Int → Nat → Nat → List String × Nat
  | 0, _, current, _ => ([], current)
  | gas + 1, lines, current, fc =>
    if (current : Int) < lines then
      let body := if fc % 5 = 0 then jsClassBody fc else jsFuncBody fc
      let rest :=
        if (current + body.length : Int) < lines - 5 then
          let r := jsLoopFuel gas lines (current + body.length + 4) (fc + 1)
          (jsDeclLines (fc + 1) ++ r.1, r.2)
        else
          jsLoopFuel gas lines (current + body.length) (fc + 1)
      (("" :: body ++ [""]) ++ rest.1, rest.2)
    else ([], current)

/-- Fuelled structural evaluator for `tsLoop` (see `jsLoopFuel`). -/
def tsLoopFuel : Nat → Int → Nat → Nat → List String × Nat
  | 0, _, current, _ => ([], current)
  | gas + 1, lines, current, fc =>
    if (current : Int) < lines then
      let body :=
        if fc % 4 = 0 then tsInterfaceBody fc
        else if fc % 4 = 1 then tsClassBody fc
        else tsFuncBody fc
      let rest :=
        if (current + body.length : Int) < lines - 10 then
          let r := tsLoopFuel gas lines (current + body.length + 4) (fc + 1)
          (tsDeclLines (fc + 1) ++ r.1, r.2)
        else
          tsLoopFuel gas lines (current + body.length) (fc + 1)
      (("" :: body ++ [""]) ++ rest.1, rest.2)
    else ([], current)

lemma jsClassBody_len (fc : Nat) : (jsClassBody fc).length = 30 := rfl

lemma jsFuncBody_len (fc : Nat) : (jsFuncBody fc).length = 40 := rfl

lemma jsDeclLines_len (fc : Nat) : (jsDeclLines fc).length = 4 := rfl

lemma tsInterfaceBody_len (fc : Nat) : (tsInterfaceBody fc).length = 10 := rfl

lemma tsClassBody_len (fc : Nat) : (tsClassBody fc).length = 35 := rfl

lemma tsFuncBody_len (fc : Nat) : (tsFuncBody fc).length = 47 := rfl

lemma jsLoop_of_ge (lines : Int) (current fc : Nat) (h : ¬(current : Int) < lines) :
    jsLoop lines current fc = ([], current) := by
  rw [jsLoop.eq_def, dif_neg h]

lemma tsLoop_of_ge (lines : Int) (current fc : Nat) (h : ¬(current : Int) < lines) :
    tsLoop lines current fc = ([], current) := by
  rw [tsLoop.eq_def, dif_neg h]

/-- Loop invariants of the JavaScript generator: the final line counter never
drops below its starting value, the emitted text has at least as many lines
as the counter gained, and once the loop runs the counter ends in
`[lines, lines + 44)` — 44 being the largest one-iteration increment (a
40-line function body plus a 4-line declaration group). -/
lemma jsLoop_spec (lines : Int) (current fc : Nat) :
    current ≤ (jsLoop lines current fc).2 ∧
    (jsLoop lines current fc).2 ≤ current + (jsLoop lines current fc).1.length ∧
    ((current : Int) < lines →
      lines ≤ ((jsLoop lines current fc).2 : Int) ∧
      ((jsLoop lines current fc).2 : Int) < lines + 44) := by
  induction current, fc using jsLoop.induct lines with
  | case1 current fc h body ihThen ihElse =>
    rw [jsLoop.eq_def, dif_pos h]
    unfold_let body at *
    simp only [dite_eq_ite] at *
    have h30 : (jsClassBody fc).length = 30 := rfl
    have h40 : (jsFuncBody fc).length = 40 := rfl
    have hd : (jsDeclLines (fc + 1)).length = 4 := rfl
    have hBlen : (if fc % 5 = 0 then jsClassBody fc else jsFuncBody fc).length = 30 ∨
        (if fc % 5 = 0 then jsClassBody fc else jsFuncBody fc).length = 40 := by
      split
      · exact Or.inl h30
      · exact Or.inr h40
    by_cases hc : (↑current +
        ↑(if fc % 5 = 0 then jsClassBody fc else jsFuncBody fc).length : Int) < lines - 5
    · rw [if_pos hc]
      specialize ihThen hc
      simp only [List.length_append, List.length_cons, List.length_nil]
      omega
    · rw [if_neg hc]
      specialize ihElse hc
      simp only [List.length_append, List.length_cons, List.length_nil]
      by_cases hin : (↑(current +
          (if fc % 5 = 0 then jsClassBody fc else jsFuncBody fc).length) : Int) < lines
      · omega
      · rw [jsLoop_of_ge lines _ _ hin]
        simp only [List.length_nil]
        omega
  | case2 current fc h =>
    rw [jsLoop.eq_def, dif_neg h]
    exact ⟨le_refl _, by simp, fun hcon => absurd hcon h⟩

/-- Loop invariants of the TypeScript generator; the largest one-iteration
increment is 51 (a 47-line functions body plus a 4-line type group). -/
lemma tsLoop_spec (lines : Int) (current fc : Nat) :
    current ≤ (tsLoop lines current fc).2 ∧
    (tsLoop lines current fc).2 ≤ current + (tsLoop lines current fc).1.length ∧
    ((current : Int) < lines →
      lines ≤ ((tsLoop lines current fc).2 : Int) ∧
      ((tsLoop lines current fc).2 : Int) < lines + 51) := by
  induction current, fc using tsLoop.induct lines with
  | case1 current fc h body ihThen ihElse =>
    rw [tsLoop.eq_def, dif_pos h]
    unfold_let body at *
    simp only [dite_eq_ite] at *
    have h10 : (tsInterfaceBody fc).length = 10 := rfl
    have h35 : (tsClassBody fc).length = 35 := rfl
    have h47 : (tsFuncBody fc).length = 47 := rfl
    have hd : (tsDeclLines (fc + 1)).length = 4 := rfl
    have hBlen : (if fc % 4 = 0 then tsInterfaceBody fc
          else if fc % 4 = 1 then tsClassBody fc else tsFuncBody fc).length = 10 ∨
        (if fc % 4 = 0 then tsInterfaceBody fc
          else if fc % 4 = 1 then tsClassBody fc else tsFuncBody fc).length = 35 ∨
        (if fc % 4 = 0 then tsInterfaceBody fc
          else if fc % 4 = 1 then tsClassBody fc else tsFuncBody fc).length = 47 := by
      split
      · exact Or.inl h10
      · split
        · exact Or.inr (Or.inl h35)
        · exact Or.inr (Or.inr h47)
    by_cases hc : (↑current + ↑(if fc % 4 = 0 then tsInterfaceBody fc
        else if fc % 4 = 1 then tsClassBody fc else tsFuncBody fc).length : Int) < lines - 10
    · rw [if_pos hc]
      specialize ihThen hc
      simp only [List.length_append, List.length_cons, List.length_nil]
      omega
    · rw [if_neg hc]
      specialize ihElse hc
      simp only [List.length_append, List.length_cons, List.length_nil]
      by_cases hin : (↑(current + (if fc % 4 = 0 then tsInterfaceBody fc
          else if fc % 4 = 1 then tsClassBody fc else tsFuncBody fc).length) : Int) < lines
      · omega
      · rw [tsLoop_of_ge lines _ _ hin]
        simp only [List.length_nil]
        omega
  | case2 current fc h =>
    rw [tsLoop.eq_def, dif_neg h]
    exact ⟨le_refl _, by simp, fun hcon => absurd hcon h⟩

lemma jsLoopFuel_eq (gas : Nat) : ∀ (lines : Int) (current fc : Nat),
    (lines - current).toNat ≤ gas →
    jsLoopFuel gas lines current fc = jsLoop lines current fc := by
  induction gas with
  | zero =>
    intro lines current fc h0
    have hge : ¬ (current : Int) < lines := by omega
    rw [jsLoop_of_ge _ _ _ hge]
    rfl
  | succ gas ih =>
    intro lines current fc hgas
    by_cases h : (current : Int) < lines
    · rw [jsLoop.eq_def, dif_pos h]
      show (if (current : Int) < lines then _ else _) = _
      rw [if_pos h]
      have h30 : (jsClassBody fc).length = 30 := rfl
      have h40 : (jsFuncBody fc).length = 40 := rfl
      have hBlen : (if fc % 5 = 0 then jsClassBody fc else jsFuncBody fc).length = 30 ∨
          (if fc % 5 = 0 then jsClassBody fc else jsFuncBody fc).length = 40 := by
        split
        · exact Or.inl h30
        · exact Or.inr h40
      by_cases hc : (↑current +
          ↑(if fc % 5 = 0 then jsClassBody fc else jsFuncBody fc).length : Int) < lines - 5
      · simp only [if_pos hc]
        rw [ih lines _ (fc + 1) (by omega)]
      · simp only [if_neg hc]
        rw [ih lines _ (fc + 1) (by omega)]
    · rw [jsLoop_of_ge _ _ _ h]
      show (if (current : Int) < lines then _ else _) = _
      rw [if_neg h]

lemma tsLoopFuel_eq (gas : Nat) : ∀ (lines : Int) (current fc : Nat),
    (lines - current).toNat ≤ gas →
    tsLoopFuel gas lines current fc = tsLoop lines current fc := by
  induction gas with
  | zero =>
    intro lines current fc h0
    have hge : ¬ (current : Int) < lines := by omega
    rw [tsLoop_of_ge _ _ _ hge]
    rfl
  | succ gas ih =>
    intro lines current fc hgas
    by_cases h : (current : Int) < lines
    · rw [tsLoop.eq_def, dif_pos h]
      show (if (current : Int) < lines then _ else _) = _
      rw [if_pos h]
      have h10 : (tsInterfaceBody fc).length = 10 := rfl
      have h35 : (tsClassBody fc).length = 35 := rfl
      have h47 : (tsFuncBody fc).length = 47 := rfl
      have hBlen : (if fc % 4 = 0 then tsInterfaceBody fc
            else if fc % 4 = 1 then tsClassBody fc else tsFuncBody fc).length = 10 ∨
          (if fc % 4 = 0 then tsInterfaceBody fc
            else if fc % 4 = 1 then tsClassBody fc else tsFuncBody fc).length = 35 ∨
          (if fc % 4 = 0 then tsInterfaceBody fc
            else if fc % 4 = 1 then tsClassBody fc else tsFuncBody fc).length = 47 := by
        split
        · exact Or.inl h10
        · split
          · exact Or.inr (Or.inl h35)
          · exact Or.inr (Or.inr h47)
      by_cases hc : (↑current + ↑(if fc % 4 = 0 then tsInterfaceBody fc
          else if fc % 4 = 1 then tsClassBody fc
          else tsFuncBody fc).length : Int) < lines - 10
      · simp only [if_pos hc]
        rw [ih lines _ (fc + 1) (by omega)]
      · simp only [if_neg hc]
        rw [ih lines _ (fc + 1) (by omega)]
    · rw [tsLoop_of_ge _ _ _ h]
      show (if (current : Int) < lines then _ else _) = _
      rw [if_neg h]

set_option maxRecDepth 40000 in
lemma gen_js_100 : (generate_javascript_lines 100).length = 129 := by
  rw [generate_javascript_lines, ← jsLoopFuel_eq 95 100 5 0 (by norm_num)]
  rfl

set_option maxRecDepth 40000 in
lemma gen_js_500 : (generate_javascript_lines 500).length = 565 := by
  rw [generate_javascript_lines, ← jsLoopFuel_eq 495 500 5 0 (by norm_num)]
  rfl

set_option maxRecDepth 40000 in
lemma gen_ts_100 : (generate_typescript_lines 100).length = 111 := by
  rw [generate_typescript_lines, ← tsLoopFuel_eq 95 100 5 0 (by norm_num)]
  rfl

set_option maxRecDepth 40000 in
lemma gen_ts_500 : (generate_typescript_lines 500).length = 547 := by
  rw [generate_typescript_lines, ← tsLoopFuel_eq 495 500 5 0 (by norm_num)]
  rfl

/-- C3 (amended): for every target `L ≥ 6` and either dialect the generator
never undershoots — the emitted text has at least `L` lines — and the
internal line counter ends below `L + 44` (JavaScript) respectively
`L + 51` (TypeScript), the largest one-iteration increment.  The claimed
upper bound `L + (largest single block)` on the text's line count fails
(see the counterexample): the text exceeds the counter by two blank
boundary lines per appended block. -/
theorem generator_line_bounds (L : Int) (h : 6 ≤ L) :
    (L ≤ ((generate_javascript_lines L).length : Int) ∧
     L ≤ ((generate_typescript_lines L).length : Int)) ∧
    (((jsLoop L 5 0).2 : Int) < L + 44 ∧ ((tsLoop L 5 0).2 : Int) < L + 51) := by
  have h5 : ((5 : Nat) : Int) < L := by omega
  obtain ⟨j1, j2, j3⟩ := jsLoop_spec L 5 0
  obtain ⟨t1, t2, t3⟩ := tsLoop_spec L 5 0
  obtain ⟨j4, j5⟩ := j3 h5
  obtain ⟨t4, t5⟩ := t3 h5
  have hjl : (generate_javascript_lines L).length = 5 + (jsLoop L 5 0).1.length := by
    simp [generate_javascript_lines, jsPreambleLines]
    omega
  have htl : (generate_typescript_lines L).length = 5 + (tsLoop L 5 0).1.length := by
    simp [generate_typescript_lines, tsPreambleLines]
    omega
  refine ⟨⟨?_, ?_⟩, j5, t5⟩ <;> omega

/-- Witness for C3's amended theorem at the smallest covered target. -/
theorem generator_line_bounds_witness :
    ((6 : Int) ≤ ((generate_javascript_lines 6).length : Int) ∧
     (6 : Int) ≤ ((generate_typescript_lines 6).length : Int)) ∧
    (((jsLoop 6 5 0).2 : Int) < 6 + 44 ∧ ((tsLoop 6 5 0).2 : Int) < 6 + 51) :=
  generator_line_bounds 6 (by norm_num)

/-- C3 counterexample: at target 500 the JavaScript generator emits 565
lines of text, overshooting by 65 — more than the largest single appended
block (42 lines), so the claimed strict bound `actual < L + max block`
fails. -/
theorem generator_overshoot_unbounded_by_block :
    (generate_javascript_lines 500).length = 565 ∧
    jsLargestBlockLines = 42 ∧
    ¬ (generate_javascript_lines 500).length < 500 + jsLargestBlockLines := by
  refine ⟨gen_js_500, rfl, ?_⟩
  rw [gen_js_500]
  norm_num [jsLargestBlockLines, jsClassBody_len, jsFuncBody_len]

/-- C9: for every target `L ≤ 0` and either dialect, the generator runs no
loop iteration and returns exactly the fixed five-line preamble (four
import/require lines and a blank line); the joined text is the fixed
preamble string, and no error is raised (the functions are total). -/
theorem preamble_only_nonpositive (L : Int) (h : L ≤ 0) :
    generate_javascript_lines L = jsPreambleLines ∧
    generate_typescript_lines L = tsPreambleLines ∧
    jsPreambleLines.length = 5 ∧ tsPreambleLines.length = 5 ∧
    generate_javascript_code L =
      "import React from 'react';\nimport \x7b useState, useEffect \x7d from 'react';\nconst fs = require('fs');\nconst path = require('path');\n" ∧
    generate_typescript_code L =
      "import React, \x7b Component \x7d from 'react';\nimport type \x7b User, ApiResponse \x7d from './types';\nimport * as utils from './utils';\nconst fs = require('fs');\n" := by
  have hj : jsLoop L 5 0 = ([], 5) := jsLoop_of_ge _ _ _ (by omega)
  have ht : tsLoop L 5 0 = ([], 5) := tsLoop_of_ge _ _ _ (by omega)
  have hjl : generate_javascript_lines L = jsPreambleLines := by
    rw [generate_javascript_lines, hj]
    simp
  have htl : generate_typescript_lines L = tsPreambleLines := by
    rw [generate_typescript_lines, ht]
    simp
  refine ⟨hjl, htl, rfl, rfl, ?_, ?_⟩
  · rw [generate_javascript_code, hjl]
    rfl
  · rw [generate_typescript_code, htl]
    rfl

/-- Witness for C9 at the negative target -3. -/
theorem preamble_only_nonpositive_witness :
    generate_javascript_lines (-3) = jsPreambleLines ∧
    generate_typescript_lines (-3) = tsPreambleLines ∧
    jsPreambleLines.length = 5 ∧ tsPreambleLines.length = 5 ∧
    generate_javascript_code (-3) =
      "import React from 'react';\nimport \x7b useState, useEffect \x7d from 'react';\nconst fs = require('fs');\nconst path = require('path');\n" ∧
    generate_typescript_code (-3) =
      "import React, \x7b Component \x7d from 'react';\nimport type \x7b User, ApiResponse \x7d from './types';\nimport * as utils from './utils';\nconst fs = require('fs');\n" :=
  preamble_only_nonpositive (-3) (by norm_num)

/-- C10: for `1 ≤ L ≤ 5` the generators return exactly what they return for
`L ≤ 0` — the five-line preamble — because the internal counter starts at
the baseline 5 and the loop only runs while it is below `L`; structural
blocks first appear at `L = 6`. -/
theorem preamble_only_short_targets (L : Int) (h1 : 1 ≤ L) (h2 : L ≤ 5) :
    generate_javascript_lines L = generate_javascript_lines 0 ∧
    generate_typescript_lines L = generate_typescript_lines 0 ∧
    generate_javascript_lines L = jsPreambleLines ∧
    generate_typescript_lines L = tsPreambleLines := by
  have hj : jsLoop L 5 0 = ([], 5) := jsLoop_of_ge _ _ _ (by omega)
  have ht : tsLoop L 5 0 = ([], 5) := tsLoop_of_ge _ _ _ (by omega)
  have hj0 : jsLoop 0 5 0 = ([], 5) := jsLoop_of_ge _ _ _ (by norm_num)
  have ht0 : tsLoop 0 5 0 = ([], 5) := tsLoop_of_ge _ _ _ (by norm_num)
  refine ⟨?_, ?_, ?_, ?_⟩ <;>
    simp [generate_javascript_lines, generate_typescript_lines, hj, ht, hj0, ht0]

/-- Witness for C10 at target 3. -/
theorem preamble_only_short_targets_witness :
    generate_javascript_lines 3 = generate_javascript_lines 0 ∧
    generate_typescript_lines 3 = generate_typescript_lines 0 ∧
    generate_javascript_lines 3 = jsPreambleLines ∧
    generate_typescript_lines 3 = tsPreambleLines :=
  preamble_only_short_targets 3 (by norm_num) (by norm_num)

/-- C2 (amended): the success-branch record satisfies the two derived-metric
formulas exactly whenever `actual_lines > 0` and `duration_ms ≠ 0`.  There
is no explicit zero guard — at `actual_lines = 0` (or `duration_ms = 0`)
the construction raises `ZeroDivisionError` (see the counterexample) — but
the zero case is unreachable in the pipeline: either generator's output has
at least the 5 preamble lines for every target. -/
theorem derived_metrics_exact (lang : String) (target : Int) (actual : Nat)
    (duration : ℚ) (body : AnalysisBody) (hA : 0 < actual) (hD : duration ≠ 0) :
    (∃ r, mkSuccessResult lang target actual duration body = some r ∧
      r.success = true ∧
      r.ms_per_1k_lines = some (duration / (actual : ℚ) * 1000) ∧
      r.lines_per_second = some ((actual : ℚ) / (duration / 1000))) ∧
    (∀ L : Int, 5 ≤ (generate_javascript_lines L).length ∧
      5 ≤ (generate_typescript_lines L).length) := by
  constructor
  · have hq : ((actual : ℚ)) ≠ 0 := Nat.cast_ne_zero.mpr hA.ne'
    have hd1000 : duration / 1000 ≠ 0 := div_ne_zero hD (by norm_num)
    have heq : mkSuccessResult lang target actual duration body = some
        { language := lang, target_lines := target, actual_lines := actual,
          duration_ms := some duration,
          lines_per_second := some ((actual : ℚ) / (duration / 1000)),
          ms_per_1k_lines := some (duration / (actual : ℚ) * 1000),
          functions_found := some body.metrics.functions_count,
          classes_found := some body.metrics.classes_count,
          complexity_score := some body.metrics.complexity_score,
          findings_count := some body.findings_count,
          error := none, success := true } := by
      simp only [mkSuccessResult, pyDiv]
      rw [if_neg hd1000, if_neg hq]
      rfl
    exact ⟨_, heq, rfl, rfl, rfl⟩
  · intro L
    constructor <;>
      simp [generate_javascript_lines, generate_typescript_lines,
        jsPreambleLines, tsPreambleLines]

/-- Witness for C2's amended theorem at the stub scenario's first trial. -/
theorem derived_metrics_exact_witness :
    (∃ r, mkSuccessResult "JavaScript" 100 129 10 ⟨⟨2, 1, 5⟩, 0⟩ = some r ∧
      r.success = true ∧
      r.ms_per_1k_lines = some ((10 : ℚ) / (129 : ℚ) * 1000) ∧
      r.lines_per_second = some ((129 : ℚ) / ((10 : ℚ) / 1000))) ∧
    (∀ L : Int, 5 ≤ (generate_javascript_lines L).length ∧
      5 ≤ (generate_typescript_lines L).length) :=
  derived_metrics_exact "JavaScript" 100 129 10 ⟨⟨2, 1, 5⟩, 0⟩ (by norm_num) (by norm_num)

/-- C2 counterexample: there is no zero guard — constructing the success
record at `actual_lines = 0` (and likewise at `duration_ms = 0`) raises
`ZeroDivisionError`, modelled by `none`. -/
theorem derived_metrics_no_zero_guard :
    mkSuccessResult "JavaScript" 100 0 10 ⟨⟨2, 1, 5⟩, 0⟩ = none ∧
    mkSuccessResult "JavaScript" 100 129 0 ⟨⟨2, 1, 5⟩, 0⟩ = none := by
  constructor <;> norm_num [mkSuccessResult, pyDiv]

/-- C4: over a non-empty successful subset, the summary's averages are the
arithmetic means of the per-record derived values over exactly the records
with `success = true`, `max_lines_tested` is attained by a successful record
and dominates all of them, and `meets_target` holds exactly when the mean
normalized cost is at most 100. -/
theorem summary_statistics (file_sizes : List Int) (benchmarks : List BenchmarkResult)
    (h : benchmarks.filter (·.success) ≠ []) :
    ∃ s, summarize file_sizes benchmarks = some s ∧
      s.average_ms_per_1k_lines =
        arithMean ((benchmarks.filter (·.success)).map fun b => b.ms_per_1k_lines.getD 0) ∧
      s.average_lines_per_second =
        arithMean ((benchmarks.filter (·.success)).map fun b => b.lines_per_second.getD 0) ∧
      (∀ b ∈ benchmarks.filter (·.success), b.actual_lines ≤ s.max_lines_tested) ∧
      (∃ b ∈ benchmarks.filter (·.success), s.max_lines_tested = b.actual_lines) ∧
      (s.meets_target = true ↔
        arithMean ((benchmarks.filter (·.success)).map fun b => b.ms_per_1k_lines.getD 0) ≤ 100) := by
  have hne : (benchmarks.filter (·.success)).isEmpty = false := by
    simpa [List.isEmpty_iff] using h
  have hmap : ((benchmarks.filter (·.success)).map fun b => b.actual_lines) ≠ [] := by
    simpa using h
  obtain ⟨m, hm⟩ :
      ∃ a, ((benchmarks.filter (·.success)).map fun b => b.actual_lines).max? = some a := by
    cases hmx : ((benchmarks.filter (·.success)).map fun b => b.actual_lines).max? with
    | none => rw [List.max?_eq_none_iff] at hmx; exact absurd hmx hmap
    | some a => exact ⟨a, rfl⟩
  obtain ⟨hmem, hdom⟩ := (List.max?_eq_some_iff (fun a => le_refl a)
    (fun a b => max_choice a b) (fun a b c => max_le_iff)).mp hm
  have heq : summarize file_sizes benchmarks = some
      { total_tests := file_sizes.length,
        successful_tests := (benchmarks.filter (·.success)).length,
        average_ms_per_1k_lines :=
          ((benchmarks.filter (·.success)).map fun b => b.ms_per_1k_lines.getD 0).sum /
            ((benchmarks.filter (·.success)).length : ℚ),
        average_lines_per_second :=
          ((benchmarks.filter (·.success)).map fun b => b.lines_per_second.getD 0).sum /
            ((benchmarks.filter (·.success)).length : ℚ),
        max_lines_tested :=
          (((benchmarks.filter (·.success)).map fun b => b.actual_lines).max?).getD 0,
        meets_target := decide
          (((benchmarks.filter (·.success)).map fun b => b.ms_per_1k_lines.getD 0).sum /
            ((benchmarks.filter (·.success)).length : ℚ) ≤ 100) } := by
    simp only [summarize, hne, Bool.false_eq_true, if_false]
  refine ⟨_, heq, ?_, ?_, ?_, ?_, ?_⟩
  · simp [arithMean, List.length_map]
  · simp [arithMean, List.length_map]
  · intro b hb
    simp only [hm, Option.getD_some]
    exact hdom _ (List.mem_map_of_mem _ hb)
  · simp only [hm, Option.getD_some]
    obtain ⟨b, hb, hbm⟩ := List.mem_map.mp hmem
    exact ⟨b, hb, hbm.symm⟩
  · simp [arithMean, List.length_map]

/-- Witness for C4 at the spec's synthetic example: three successful records
with normalized costs 50, 100 and 150 give mean 100 and a met target. -/
theorem summary_statistics_witness :
    ∃ s, summarize [1, 2, 3]
        [sampleResult 50 1 1000 true, sampleResult 100 2 1000 true,
         sampleResult 150 3 1000 true] = some s ∧
      s.average_ms_per_1k_lines =
        arithMean ((([sampleResult 50 1 1000 true, sampleResult 100 2 1000 true,
          sampleResult 150 3 1000 true]).filter (·.success)).map
            fun b => b.ms_per_1k_lines.getD 0) ∧
      s.average_lines_per_second =
        arithMean ((([sampleResult 50 1 1000 true, sampleResult 100 2 1000 true,
          sampleResult 150 3 1000 true]).filter (·.success)).map
            fun b => b.lines_per_second.getD 0) ∧
      (∀ b ∈ ([sampleResult 50 1 1000 true, sampleResult 100 2 1000 true,
          sampleResult 150 3 1000 true]).filter (·.success),
        b.actual_lines ≤ s.max_lines_tested) ∧
      (∃ b ∈ ([sampleResult 50 1 1000 true, sampleResult 100 2 1000 true,
          sampleResult 150 3 1000 true]).filter (·.success),
        s.max_lines_tested = b.actual_lines) ∧
      (s.meets_target = true ↔
        arithMean ((([sampleResult 50 1 1000 true, sampleResult 100 2 1000 true,
          sampleResult 150 3 1000 true]).filter (·.success)).map
            fun b => b.ms_per_1k_lines.getD 0) ≤ 100) :=
  summary_statistics [1, 2, 3]
    [sampleResult 50 1 1000 true, sampleResult 100 2 1000 true,
     sampleResult 150 3 1000 true] (by simp [sampleResult])

/-- C5: with no successful record the summary is left in its initial empty
state (`results['summary']` stays `{}`, modelled `none`): no average, no
maximum and no target flag are computed, so no division by zero or maximum
of an empty collection can occur. -/
theorem empty_success_no_summary (file_sizes : List Int)
    (benchmarks : List BenchmarkResult)
    (h : benchmarks.filter (·.success) = []) :
    summarize file_sizes benchmarks = none := by
  simp [summarize, h]

/-- Witness for C5: a sweep whose only record failed yields no summary. -/
theorem empty_success_no_summary_witness :
    summarize [100] [sampleResult 50 1 10 false] = none :=
  empty_success_no_summary [100] [sampleResult 50 1 10 false] (by simp [sampleResult])

/-- C8: the Week-2 readiness flag is true exactly when at least three
successful records exist and every one of the trailing three successful
records (in original result order) has at least 1000 actual lines; the
spec's two examples evaluate as stated. -/
theorem week2_readiness_iff (benchmarks : List BenchmarkResult) :
    (week2Ready benchmarks = true ↔
      (3 ≤ (benchmarks.filter (·.success)).length ∧
        ∀ b ∈ (benchmarks.filter (·.success)).drop
            ((benchmarks.filter (·.success)).length - 3),
          1000 ≤ b.actual_lines)) ∧
    week2Ready [sampleResult 50 1 1000 true, sampleResult 50 1 1200 true,
      sampleResult 50 1 5000 true] = true ∧
    week2Ready [sampleResult 50 1 999 true, sampleResult 50 1 1200 true,
      sampleResult 50 1 5000 true] = false := by
  refine ⟨?_, by decide, by decide⟩
  simp [week2Ready, List.all_eq_true, decide_eq_true_iff]

lemma sweep_length (oracle : Int → String → ServiceOutcome) (sizes : List Int) :
    ((benchmark_parsing oracle sizes).1).length = 2 * sizes.length := by
  induction sizes with
  | nil => rfl
  | cons s rest ih =>
    simp only [benchmark_parsing, List.flatMap_cons] at *
    simp only [List.length_append, List.length_cons, List.length_nil] at *
    omega

lemma sweep_get (oracle : Int → String → ServiceOutcome) (sizes : List Int) (i : Nat) :
    ((benchmark_parsing oracle sizes).1)[2 * i]? =
      (sizes[i]?).map
        (fun size => runTrial oracle size "JavaScript" generate_javascript_lines) ∧
    ((benchmark_parsing oracle sizes).1)[2 * i + 1]? =
      (sizes[i]?).map
        (fun size => runTrial oracle size "TypeScript" generate_typescript_lines) := by
  induction sizes generalizing i with
  | nil => simp [benchmark_parsing]
  | cons s rest ih =>
    cases i with
    | zero => simp [benchmark_parsing, List.flatMap_cons]
    | succ i =>
      have h2 : 2 * (i + 1) = 2 * i + 1 + 1 := by ring
      have hi := ih i
      simp only [benchmark_parsing, List.flatMap_cons] at hi ⊢
      rw [h2]
      simp only [List.cons_append, List.nil_append, List.getElem?_cons_succ]
      exact hi

/-- C1: the (re-indented) sweep appends exactly one record per (size,
dialect) pair — the JavaScript trial then the TypeScript trial for each
size, sizes outermost in order — so `N` sizes yield `2 * N` records, and the
record at index `2*i` (resp. `2*i + 1`) is precisely the JavaScript
(resp. TypeScript) trial of the `i`-th size. -/
theorem sweep_two_records_per_size (oracle : Int → String → ServiceOutcome)
    (file_sizes : List Int) :
    ((benchmark_parsing oracle file_sizes).1).length = 2 * file_sizes.length ∧
    ∀ i : Nat,
      ((benchmark_parsing oracle file_sizes).1)[2 * i]? =
        (file_sizes[i]?).map
          (fun size => runTrial oracle size "JavaScript" generate_javascript_lines) ∧
      ((benchmark_parsing oracle file_sizes).1)[2 * i + 1]? =
        (file_sizes[i]?).map
          (fun size => runTrial oracle size "TypeScript" generate_typescript_lines) :=
  ⟨sweep_length oracle file_sizes, fun i => sweep_get oracle file_sizes i⟩

/-- C7: a failing trial (non-200 status, or an exception) is recorded as a
failed result whose error text carries the status code and body, or the
exception description (non-empty whenever that description is); a trial's
record depends only on that trial's own outcome, so a failure alters no
other trial's record; and the sweep still appends a record for every trial
of every size. -/
theorem failed_trial_recording (oracle : Int → String → ServiceOutcome) (size : Int)
    (lang : String) (g : Int → List String) :
    (∀ (d : ℚ) (st : Nat) (body : AnalysisBody) (btext : String),
        oracle size lang = .response d st body btext → st ≠ 200 →
        (runTrial oracle size lang g).success = false ∧
        (runTrial oracle size lang g).error =
          some ("HTTP " ++ toString st ++ ": " ++ btext) ∧
        ("HTTP " ++ toString st ++ ": " ++ btext) ≠ "") ∧
    (∀ msg : String, oracle size lang = .exn msg →
        (runTrial oracle size lang g).success = false ∧
        (runTrial oracle size lang g).error = some msg ∧
        (msg ≠ "" → (runTrial oracle size lang g).error ≠ some "")) ∧
    (∀ oracle2 : Int → String → ServiceOutcome,
        oracle2 size lang = oracle size lang →
        runTrial oracle2 size lang g = runTrial oracle size lang g) ∧
    (∀ sizes : List Int, ((benchmark_parsing oracle sizes).1).length = 2 * sizes.length) := by
  refine ⟨?_, ?_, ?_, fun sizes => sweep_length oracle sizes⟩
  · intro d st body btext hor hst
    have hlen : ("HTTP " : String).length = 5 := rfl
    refine ⟨?_, ?_, ?_⟩
    · simp [runTrial, hor, hst, httpErrorResult]
    · simp [runTrial, hor, hst, httpErrorResult]
    · intro heq
      have hz := congrArg String.length heq
      have hlen2 : (": " : String).length = 2 := rfl
      have hlen0 : ("" : String).length = 0 := rfl
      simp only [String.length_append, hlen, hlen2, hlen0] at hz
      omega
  · intro msg hor
    refine ⟨by simp [runTrial, hor, exnResult], by simp [runTrial, hor, exnResult], ?_⟩
    intro hmsg
    simp [runTrial, hor, exnResult, hmsg]
  · intro oracle2 hsame
    simp [runTrial, hsame]

lemma runTrial_stub (size : Int) (lang : String) (g : Int → List String)
    (n : Nat) (hg : (g size).length = n) (hn : 0 < n) :
    runTrial stubOracle size lang g =
      { language := lang, target_lines := size, actual_lines := n,
        duration_ms := some 10,
        lines_per_second := some ((n : ℚ) / (10 / 1000)),
        ms_per_1k_lines := some ((10 : ℚ) / (n : ℚ) * 1000),
        functions_found := some 2, classes_found := some 1,
        complexity_score := some 5, findings_count := some 0,
        error := none, success := true } := by
  have hq : ((n : ℚ)) ≠ 0 := Nat.cast_ne_zero.mpr hn.ne'
  have hd : ((10 : ℚ)) / 1000 ≠ 0 := by norm_num
  simp only [runTrial, stubOracle, hg, if_true]
  simp only [mkSuccessResult, pyDiv]
  rw [if_neg hd, if_neg hq]
  rfl

/-- C6 (amended): the summary's `total_tests` field equals the number of
requested sizes `N` — not the number of trials — while the sweep appends
`2 * N` records (two dialects per size); `successful_tests` equals the
number of records with `success = true`. -/
theorem total_tests_counts_sizes (file_sizes : List Int)
    (benchmarks : List BenchmarkResult)
    (h : benchmarks.filter (·.success) ≠ []) :
    (∃ s, summarize file_sizes benchmarks = some s ∧
      s.total_tests = file_sizes.length ∧
      s.successful_tests = (benchmarks.filter (·.success)).length) ∧
    ∀ (oracle : Int → String → ServiceOutcome) (sizes : List Int),
      ((benchmark_parsing oracle sizes).1).length = 2 * sizes.length := by
  constructor
  · have hne : (benchmarks.filter (·.success)).isEmpty = false := by
      simpa [List.isEmpty_iff] using h
    have heq : summarize file_sizes benchmarks = some
        { total_tests := file_sizes.length,
          successful_tests := (benchmarks.filter (·.success)).length,
          average_ms_per_1k_lines :=
            ((benchmarks.filter (·.success)).map fun b => b.ms_per_1k_lines.getD 0).sum /
              ((benchmarks.filter (·.success)).length : ℚ),
          average_lines_per_second :=
            ((benchmarks.filter (·.success)).map fun b => b.lines_per_second.getD 0).sum /
              ((benchmarks.filter (·.success)).length : ℚ),
          max_lines_tested :=
            (((benchmarks.filter (·.success)).map fun b => b.actual_lines).max?).getD 0,
          meets_target := decide
            (((benchmarks.filter (·.success)).map fun b => b.ms_per_1k_lines.getD 0).sum /
              ((benchmarks.filter (·.success)).length : ℚ) ≤ 100) } := by
      simp only [summarize, hne, Bool.false_eq_true, if_false]
    exact ⟨_, heq, rfl, rfl⟩
  · exact fun oracle sizes => sweep_length oracle sizes

/-- Witness for C6's amended theorem: one requested size, one successful
record — `total_tests` is 1 and `successful_tests` is 1. -/
theorem total_tests_counts_sizes_witness :
    (∃ s, summarize [100] [sampleResult 50 1 129 true] = some s ∧
      s.total_tests = ([100] : List Int).length ∧
      s.successful_tests = ([sampleResult 50 1 129 true].filter (·.success)).length) ∧
    ∀ (oracle : Int → String → ServiceOutcome) (sizes : List Int),
      ((benchmark_parsing oracle sizes).1).length = 2 * sizes.length :=
  total_tests_counts_sizes [100] [sampleResult 50 1 129 true] (by simp [sampleResult])

/-- C6 counterexample: sweeping sizes [100, 500] against the stub service
appends 4 records, yet the summary's `total_tests` is `len(file_sizes) = 2`,
not the number of trials 4 the claim asserts. -/
theorem total_tests_neq_record_count :
    (benchmark_parsing stubOracle [100, 500]).1.length = 4 ∧
    ((benchmark_parsing stubOracle [100, 500]).2.map fun s => s.total_tests) = some 2 ∧
    ¬ ((benchmark_parsing stubOracle [100, 500]).2.map fun s => s.total_tests) =
        some (benchmark_parsing stubOracle [100, 500]).1.length := by
  have e1 := runTrial_stub 100 "JavaScript" generate_javascript_lines 129 gen_js_100
    (by norm_num)
  have e2 := runTrial_stub 100 "TypeScript" generate_typescript_lines 111 gen_ts_100
    (by norm_num)
  have e3 := runTrial_stub 500 "JavaScript" generate_javascript_lines 565 gen_js_500
    (by norm_num)
  have e4 := runTrial_stub 500 "TypeScript" generate_typescript_lines 547 gen_ts_500
    (by norm_num)
  have hlen : (benchmark_parsing stubOracle [100, 500]).1.length = 4 :=
    sweep_length stubOracle [100, 500]
  have hsum : (benchmark_parsing stubOracle [100, 500]).2 =
      summarize [100, 500] ((benchmark_parsing stubOracle [100, 500]).1) := rfl
  have hrec : (benchmark_parsing stubOracle [100, 500]).1 =
      [runTrial stubOracle 100 "JavaScript" generate_javascript_lines,
       runTrial stubOracle 100 "TypeScript" generate_typescript_lines,
       runTrial stubOracle 500 "JavaScript" generate_javascript_lines,
       runTrial stubOracle 500 "TypeScript" generate_typescript_lines] := by
    simp [benchmark_parsing, List.flatMap_cons]
  have htt : ((benchmark_parsing stubOracle [100, 500]).2.map fun s => s.total_tests) =
      some 2 := by
    rw [hsum, hrec, e1, e2, e3, e4]
    simp only [summarize, List.filter, Option.map_some]
    rfl
  refine ⟨hlen, htt, ?_⟩
  rw [htt, hlen]
  simp
